import Mathlib

/-!
Shallow embedding of the accounting and settlement core of the mpesa payment
backend: the double-entry ledger (src/services/ledger.ts), the referral escrow
state machine (src/services/referralEscrow.ts), the idempotent webhook
ingestion pipeline (src/services/darajaWebhook.ts), the fraud risk gate
(fraudPrevention service) and the withdrawal tier limiter (withdrawalLimits
service).

The datastore is modelled as a `Store` of lists of rows; every supabase query
used by the code becomes a pure filter or lookup over those lists, and every
write becomes a functional update.  Timestamps are naturals counting
milliseconds, monetary amounts are integers.  Fields of the database rows that
none of the modelled operations consult are dropped; the metadata blobs are
flattened to the fields the code actually reads (isSignup, email,
deviceFingerprint).
-/

namespace Mpesa

/-- Transaction type enumeration of src/types. -/
inductive TxType
  | deposit
  | withdrawal
  | referral_payout
  | escrow_release
  | fee
deriving DecidableEq, Repr

/-- Transaction status enumeration of src/types. -/
inductive TxStatus
  | pending
  | completed
  | failed
  | cancelled
deriving DecidableEq, Repr

/-- Referral status enumeration of src/types. -/
inductive RefStatus
  | pending
  | escrow
  | paid
  | cancelled
deriving DecidableEq, Repr

/-- A row of the transactions table.  The metadata blob is flattened to the
fields consulted by the webhook pipeline. -/
structure Transaction where
  id : String
  userId : String
  type : TxType
  amount : Int
  status : TxStatus
  reference : String
  isSignup : Bool
  email : Option String
  deviceFingerprint : Option String
  createdAt : Nat
  processedAt : Option Nat
deriving DecidableEq, Repr

/-- A row of the ledger_entries table.  The uuid primary key is dropped; the
balance snapshot and description are kept as the code computes them. -/
structure LedgerEntry where
  transactionId : String
  userId : String
  debit : Int
  credit : Int
  balance : Int
  description : String
deriving DecidableEq, Repr

/-- A row of the user_balances cache table.  The lastComputedAt timestamp is
not consulted by any modelled operation and is dropped. -/
structure UserBalance where
  userId : String
  availableBalance : Int
  escrowBalance : Int
  totalBalance : Int
deriving DecidableEq, Repr

/-- A row of the referrals table. -/
structure Referral where
  id : String
  referrerId : String
  referredId : String
  amount : Int
  status : RefStatus
  escrowReleaseDate : Nat
  createdAt : Nat
deriving DecidableEq, Repr

/-- A row of the users table. -/
structure User where
  id : String
  email : String
  phoneNumber : String
  kycVerified : Bool
  createdAt : Nat
deriving DecidableEq, Repr

/-- A row of the user_devices table. -/
structure Device where
  userId : String
  fingerprintHash : String
deriving DecidableEq, Repr

/-- Webhook idempotency record status. -/
inductive IdemStatus
  | processing
  | completed
  | failed
deriving DecidableEq, Repr

/-- A row of the webhook_idempotency table. -/
structure IdemRecord where
  key : String
  status : IdemStatus
  processedAt : Option Nat
deriving DecidableEq, Repr

/-- The whole datastore, plus the in-process idempotency map
(`processedWebhooks`) of the webhook service. -/
structure Store where
  transactions : List Transaction
  ledgerEntries : List LedgerEntry
  balances : List UserBalance
  users : List User
  devices : List Device
  referrals : List Referral
  idem : List IdemRecord
  memCache : List (String × Nat)
deriving DecidableEq, Repr

/-! ## Ledger Engine (src/services/ledger.ts) -/

/-- The transaction query of computeBalanceFromTransactions: all transactions
of the user whose status is in \x7bcompleted, pending\x7d (ledger.ts lines
79-83). -/
def balanceQuery (txs : List Transaction) (userId : String) : List Transaction :=
  txs.filter fun t =>
    t.userId == userId &&
      (t.status == TxStatus.completed || t.status == TxStatus.pending)

/-- One step of the balance scan of computeBalanceFromTransactions
(ledger.ts lines 86-96); the accumulator is (totalBalance, escrowBalance). -/
def balanceStep (acc : Int × Int) (tx : Transaction) : Int × Int :=
  if tx.type == TxType.referral_payout && tx.status == TxStatus.pending then
    (acc.1, acc.2 + tx.amount)
  else if tx.status == TxStatus.completed then
    if tx.type == TxType.deposit || tx.type == TxType.referral_payout ||
        tx.type == TxType.escrow_release then
      (acc.1 + tx.amount, acc.2)
    else if tx.type == TxType.withdrawal || tx.type == TxType.fee then
      (acc.1 - tx.amount, acc.2)
    else acc
  else acc

/-- The pure balance computation of computeBalanceFromTransactions
(ledger.ts lines 75-107). -/
def computeBalancePure (txs : List Transaction) (userId : String) : UserBalance :=
  let scanned := balanceQuery txs userId
  let tb := scanned.foldl balanceStep (0, 0)
  { userId := userId
    availableBalance := tb.1 - tb.2
    escrowBalance := tb.2
    totalBalance := tb.1 }

/-- Upsert of a row of the user_balances table, keyed by userId. -/
def writeBalanceCache (s : Store) (b : UserBalance) : Store :=
  if s.balances.any (fun r => r.userId == b.userId) then
    { s with balances := s.balances.map fun r => if r.userId == b.userId then b else r }
  else
    { s with balances := s.balances ++ [b] }

/-- computeBalanceFromTransactions (ledger.ts lines 64-113): recomputes the
balance from the transactions table and upserts the cache row. -/
def computeBalanceFromTransactions (s : Store) (userId : String) :
    UserBalance × Store :=
  let b := computeBalancePure s.transactions userId
  (b, writeBalanceCache s b)

/-- getUserBalance (ledger.ts lines 118-140): cached row unless absent or a
recompute is forced. -/
def getUserBalance (s : Store) (userId : String) (forceRecompute : Bool) :
    UserBalance × Store :=
  if forceRecompute then computeBalanceFromTransactions s userId
  else
    match s.balances.find? (fun r => r.userId == userId) with
    | some b => (b, s)
    | none => computeBalanceFromTransactions s userId

/-- updateUserBalanceCache with no balance argument (ledger.ts lines 145-159):
recomputes (which itself writes the cache) and upserts the result again. -/
def updateUserBalanceCache (s : Store) (userId : String) : Store :=
  let bs := computeBalanceFromTransactions s userId
  writeBalanceCache bs.2 bs.1

/-- createLedgerEntry (ledger.ts lines 11-59): reads the current balance,
appends the entry with the balance snapshot, then refreshes the cache. -/
def createLedgerEntry (s : Store) (transactionId userId : String)
    (debit credit : Int) (description : String) : Store :=
  let bs := getUserBalance s userId false
  let newBalance := bs.1.totalBalance - debit + credit
  let entry : LedgerEntry :=
    { transactionId := transactionId
      userId := userId
      debit := debit
      credit := credit
      balance := newBalance
      description := description }
  let s2 := { bs.2 with ledgerEntries := bs.2.ledgerEntries ++ [entry] }
  updateUserBalanceCache s2 userId

/-- Rendering of a transaction type used in ledger entry descriptions. -/
def TxType.str : TxType → String
  | .deposit => "deposit"
  | .withdrawal => "withdrawal"
  | .referral_payout => "referral_payout"
  | .escrow_release => "escrow_release"
  | .fee => "fee"

/-- recordTransaction (ledger.ts lines 164-189): maps the type to a
(debit, credit) pair and posts the entry. -/
def recordTransaction (s : Store) (tx : Transaction) : Store :=
  let dc : Int × Int :=
    match tx.type with
    | .deposit | .referral_payout | .escrow_release => (0, tx.amount)
    | .withdrawal | .fee => (tx.amount, 0)
  createLedgerEntry s tx.id tx.userId dc.1 dc.2
    (tx.type.str ++ " - " ++ tx.reference)

/-! ## Spec-side sums for the balance characterization (claim C1) -/

/-- Sum of amounts of the user's completed transactions of a credited type
(deposit, referral_payout, escrow_release), as the spec words it. -/
def creditSum (txs : List Transaction) (userId : String) : Int :=
  ((txs.filter fun t =>
      t.userId == userId && t.status == TxStatus.completed &&
        (t.type == TxType.deposit || t.type == TxType.referral_payout ||
          t.type == TxType.escrow_release)).map (fun t => t.amount)).sum

/-- Sum of amounts of the user's completed transactions of a debited type
(withdrawal, fee), as the spec words it. -/
def debitSum (txs : List Transaction) (userId : String) : Int :=
  ((txs.filter fun t =>
      t.userId == userId && t.status == TxStatus.completed &&
        (t.type == TxType.withdrawal || t.type == TxType.fee)).map
    (fun t => t.amount)).sum

/-- Sum of amounts of the user's pending referral_payout transactions, as the
spec words it. -/
def pendingPayoutSum (txs : List Transaction) (userId : String) : Int :=
  ((txs.filter fun t =>
      t.userId == userId && t.type == TxType.referral_payout &&
        t.status == TxStatus.pending).map (fun t => t.amount)).sum

lemma balanceFold_characterization (txs : List Transaction) (userId : String)
    (t0 e0 : Int) :
    (balanceQuery txs userId).foldl balanceStep (t0, e0) =
      (t0 + creditSum txs userId - debitSum txs userId,
        e0 + pendingPayoutSum txs userId) := by
  induction txs generalizing t0 e0 with
  | nil => simp [balanceQuery, creditSum, debitSum, pendingPayoutSum]
  | cons hd tl ih =>
    simp only [balanceQuery, creditSum, debitSum, pendingPayoutSum,
      List.filter_cons] at *
    by_cases hu : hd.userId = userId
    · by_cases hs : hd.status = TxStatus.completed
      · cases ht : hd.type <;>
          simp [hu, hs, ht, balanceStep, List.foldl_cons, ih] <;> ring
      · by_cases hp : hd.status = TxStatus.pending
        · cases ht : hd.type <;>
            simp [hu, hs, hp, ht, balanceStep, List.foldl_cons, ih] <;> ring
        · cases hs2 : hd.status <;> simp_all [balanceStep, ih]
    · simp [hu, ih]

/-- Claim C1: computeBalanceFromTransactions derives the balance exactly as
specified: totalBalance is the sum of completed credits (deposit,
referral_payout, escrow_release) minus completed debits (withdrawal, fee),
escrowBalance is the sum of pending referral_payout amounts, every other
transaction contributes nothing, and availableBalance equals totalBalance
minus escrowBalance. -/
theorem computeBalanceFromTransactions_spec (s : Store) (userId : String) :
    ((computeBalanceFromTransactions s userId).1.totalBalance =
        creditSum s.transactions userId - debitSum s.transactions userId) ∧
      ((computeBalanceFromTransactions s userId).1.escrowBalance =
        pendingPayoutSum s.transactions userId) ∧
      ((computeBalanceFromTransactions s userId).1.availableBalance =
        (computeBalanceFromTransactions s userId).1.totalBalance -
          (computeBalanceFromTransactions s userId).1.escrowBalance) := by
  have h := balanceFold_characterization s.transactions userId 0 0
  simp only [computeBalanceFromTransactions, computeBalancePure, h]
  refine ⟨by ring, by ring, by ring⟩

/-! ## Escrow Settlement State Machine (src/services/referralEscrow.ts) -/

/-- The referral fetch of releaseEscrow: the row with the given id and status
escrow (referralEscrow.ts lines 120-125). -/
def escrowFetch (refs : List Referral) (referralId : String) : Option Referral :=
  refs.find? fun r => r.id == referralId && r.status == RefStatus.escrow

/-- The correlated-transaction fetch of releaseEscrow: the pending transaction
whose reference is REF-referralId (referralEscrow.ts lines 147-152). -/
def pendingRefTxFetch (txs : List Transaction) (referralId : String) :
    Option Transaction :=
  txs.find? fun t =>
    t.reference == "REF-" ++ referralId && t.status == TxStatus.pending

/-- The referral-row update of releaseEscrow: set the matching row paid
(referralEscrow.ts lines 138-144). -/
def setReferralPaid (r : Referral) (referralId : String) : Referral :=
  if r.id == referralId then { r with status := RefStatus.paid } else r

/-- The transaction-row update of releaseEscrow: flip the correlated pending
transaction to completed with type escrow_release (referralEscrow.ts lines
156-164). -/
def setTxEscrowReleased (t : Transaction) (txId : String) (now : Nat) :
    Transaction :=
  if t.id == txId then
    { t with
        status := TxStatus.completed
        type := TxType.escrow_release
        processedAt := some now }
  else t

/-- releaseEscrow (referralEscrow.ts lines 119-182).  Returns the resulting
store and either unit or the thrown error message; a thrown error happens
before any write, so the store is returned unchanged in that case. -/
def releaseEscrow (s : Store) (referralId : String) (now : Nat) :
    Store × Except String Unit :=
  match escrowFetch s.referrals referralId with
  | none => (s, Except.error ("Referral not found or not in escrow: " ++ referralId))
  | some referral =>
    if now < referral.escrowReleaseDate then
      (s, Except.error ("Escrow release date not reached: " ++
        toString referral.escrowReleaseDate))
    else
      let s1 := { s with referrals := s.referrals.map (fun r => setReferralPaid r referralId) }
      match pendingRefTxFetch s1.transactions referralId with
      | none => (s1, Except.ok ())
      | some tx =>
        let s2 := { s1 with transactions := s1.transactions.map (fun t => setTxEscrowReleased t tx.id now) }
        let updatedTx : Transaction :=
          { tx with
              type := TxType.escrow_release
              status := TxStatus.completed
              processedAt := some now }
        (recordTransaction s2 updatedTx, Except.ok ())

/-- getEscrowBalance (referralEscrow.ts lines 187-195): sum of amounts of the
user's escrow-status referrals. -/
def getEscrowBalance (s : Store) (userId : String) : Int :=
  ((s.referrals.filter fun r =>
      r.referrerId == userId && r.status == RefStatus.escrow)).foldl
    (fun sum r => sum + r.amount) 0

/-- The referral-row update of cancelReferral (referralEscrow.ts lines
212-219): no status guard, any matching row is set cancelled. -/
def setReferralCancelled (r : Referral) (referralId : String) : Referral :=
  if r.id == referralId then { r with status := RefStatus.cancelled } else r

/-- The transaction-row update of cancelReferral (referralEscrow.ts lines
222-228): every transaction with the correlated reference is set cancelled,
whatever its status. -/
def setTxCancelled (t : Transaction) (reference : String) : Transaction :=
  if t.reference == reference then { t with status := TxStatus.cancelled } else t

/-- cancelReferral (referralEscrow.ts lines 200-229): fetches the referral by
id only (no status guard), sets it cancelled, and marks every transaction with
the correlated reference cancelled. -/
def cancelReferral (s : Store) (referralId reason : String) :
    Store × Except String Unit :=
  match s.referrals.find? (fun r => r.id == referralId) with
  | none => (s, Except.error ("Referral not found: " ++ referralId))
  | some _ =>
    let s1 := { s with referrals := s.referrals.map (fun r => setReferralCancelled r referralId) }
    let s2 := { s1 with transactions := s1.transactions.map (fun t => setTxCancelled t ("REF-" ++ referralId)) }
    (s2, Except.ok ())

/-! ## Frame lemmas: which store components each ledger write leaves alone -/

@[simp] lemma writeBalanceCache_transactions (s : Store) (b : UserBalance) :
    (writeBalanceCache s b).transactions = s.transactions := by
  unfold writeBalanceCache; split <;> rfl

@[simp] lemma writeBalanceCache_ledgerEntries (s : Store) (b : UserBalance) :
    (writeBalanceCache s b).ledgerEntries = s.ledgerEntries := by
  unfold writeBalanceCache; split <;> rfl

@[simp] lemma writeBalanceCache_users (s : Store) (b : UserBalance) :
    (writeBalanceCache s b).users = s.users := by
  unfold writeBalanceCache; split <;> rfl

@[simp] lemma writeBalanceCache_devices (s : Store) (b : UserBalance) :
    (writeBalanceCache s b).devices = s.devices := by
  unfold writeBalanceCache; split <;> rfl

@[simp] lemma writeBalanceCache_referrals (s : Store) (b : UserBalance) :
    (writeBalanceCache s b).referrals = s.referrals := by
  unfold writeBalanceCache; split <;> rfl

@[simp] lemma writeBalanceCache_idem (s : Store) (b : UserBalance) :
    (writeBalanceCache s b).idem = s.idem := by
  unfold writeBalanceCache; split <;> rfl

@[simp] lemma writeBalanceCache_memCache (s : Store) (b : UserBalance) :
    (writeBalanceCache s b).memCache = s.memCache := by
  unfold writeBalanceCache; split <;> rfl

@[simp] lemma computeBalance_snd_transactions (s : Store) (u : String) :
    ((computeBalanceFromTransactions s u).2).transactions = s.transactions := by
  simp [computeBalanceFromTransactions]

@[simp] lemma computeBalance_snd_ledgerEntries (s : Store) (u : String) :
    ((computeBalanceFromTransactions s u).2).ledgerEntries = s.ledgerEntries := by
  simp [computeBalanceFromTransactions]

@[simp] lemma computeBalance_snd_users (s : Store) (u : String) :
    ((computeBalanceFromTransactions s u).2).users = s.users := by
  simp [computeBalanceFromTransactions]

@[simp] lemma computeBalance_snd_devices (s : Store) (u : String) :
    ((computeBalanceFromTransactions s u).2).devices = s.devices := by
  simp [computeBalanceFromTransactions]

@[simp] lemma computeBalance_snd_referrals (s : Store) (u : String) :
    ((computeBalanceFromTransactions s u).2).referrals = s.referrals := by
  simp [computeBalanceFromTransactions]

@[simp] lemma computeBalance_snd_idem (s : Store) (u : String) :
    ((computeBalanceFromTransactions s u).2).idem = s.idem := by
  simp [computeBalanceFromTransactions]

@[simp] lemma computeBalance_snd_memCache (s : Store) (u : String) :
    ((computeBalanceFromTransactions s u).2).memCache = s.memCache := by
  simp [computeBalanceFromTransactions]

@[simp] lemma getUserBalance_snd_transactions (s : Store) (u : String) :
    ((getUserBalance s u false).2).transactions = s.transactions := by
  unfold getUserBalance
  simp only [Bool.false_eq_true, if_false]
  cases s.balances.find? (fun r => r.userId == u) <;> simp

@[simp] lemma getUserBalance_snd_ledgerEntries (s : Store) (u : String) :
    ((getUserBalance s u false).2).ledgerEntries = s.ledgerEntries := by
  unfold getUserBalance
  simp only [Bool.false_eq_true, if_false]
  cases s.balances.find? (fun r => r.userId == u) <;> simp

@[simp] lemma getUserBalance_snd_users (s : Store) (u : String) :
    ((getUserBalance s u false).2).users = s.users := by
  unfold getUserBalance
  simp only [Bool.false_eq_true, if_false]
  cases s.balances.find? (fun r => r.userId == u) <;> simp

@[simp] lemma getUserBalance_snd_devices (s : Store) (u : String) :
    ((getUserBalance s u false).2).devices = s.devices := by
  unfold getUserBalance
  simp only [Bool.false_eq_true, if_false]
  cases s.balances.find? (fun r => r.userId == u) <;> simp

@[simp] lemma getUserBalance_snd_referrals (s : Store) (u : String) :
    ((getUserBalance s u false).2).referrals = s.referrals := by
  unfold getUserBalance
  simp only [Bool.false_eq_true, if_false]
  cases s.balances.find? (fun r => r.userId == u) <;> simp

@[simp] lemma getUserBalance_snd_idem (s : Store) (u : String) :
    ((getUserBalance s u false).2).idem = s.idem := by
  unfold getUserBalance
  simp only [Bool.false_eq_true, if_false]
  cases s.balances.find? (fun r => r.userId == u) <;> simp

@[simp] lemma getUserBalance_snd_memCache (s : Store) (u : String) :
    ((getUserBalance s u false).2).memCache = s.memCache := by
  unfold getUserBalance
  simp only [Bool.false_eq_true, if_false]
  cases s.balances.find? (fun r => r.userId == u) <;> simp

@[simp] lemma updateUserBalanceCache_transactions (s : Store) (u : String) :
    (updateUserBalanceCache s u).transactions = s.transactions := by
  simp [updateUserBalanceCache]

@[simp] lemma updateUserBalanceCache_ledgerEntries (s : Store) (u : String) :
    (updateUserBalanceCache s u).ledgerEntries = s.ledgerEntries := by
  simp [updateUserBalanceCache]

@[simp] lemma updateUserBalanceCache_users (s : Store) (u : String) :
    (updateUserBalanceCache s u).users = s.users := by
  simp [updateUserBalanceCache]

@[simp] lemma updateUserBalanceCache_devices (s : Store) (u : String) :
    (updateUserBalanceCache s u).devices = s.devices := by
  simp [updateUserBalanceCache]

@[simp] lemma updateUserBalanceCache_referrals (s : Store) (u : String) :
    (updateUserBalanceCache s u).referrals = s.referrals := by
  simp [updateUserBalanceCache]

@[simp] lemma updateUserBalanceCache_idem (s : Store) (u : String) :
    (updateUserBalanceCache s u).idem = s.idem := by
  simp [updateUserBalanceCache]

@[simp] lemma updateUserBalanceCache_memCache (s : Store) (u : String) :
    (updateUserBalanceCache s u).memCache = s.memCache := by
  simp [updateUserBalanceCache]

/-- The exact ledger entry appended by createLedgerEntry. -/
def mkLedgerEntry (s : Store) (transactionId userId : String)
    (debit credit : Int) (description : String) : LedgerEntry :=
  { transactionId := transactionId
    userId := userId
    debit := debit
    credit := credit
    balance := (getUserBalance s userId false).1.totalBalance - debit + credit
    description := description }

@[simp] lemma createLedgerEntry_ledgerEntries (s : Store) (tid uid : String)
    (d c : Int) (desc : String) :
    (createLedgerEntry s tid uid d c desc).ledgerEntries =
      s.ledgerEntries ++ [mkLedgerEntry s tid uid d c desc] := by
  simp [createLedgerEntry, mkLedgerEntry]

@[simp] lemma createLedgerEntry_transactions (s : Store) (tid uid : String)
    (d c : Int) (desc : String) :
    (createLedgerEntry s tid uid d c desc).transactions = s.transactions := by
  simp [createLedgerEntry]

@[simp] lemma createLedgerEntry_users (s : Store) (tid uid : String)
    (d c : Int) (desc : String) :
    (createLedgerEntry s tid uid d c desc).users = s.users := by
  simp [createLedgerEntry]

@[simp] lemma createLedgerEntry_devices (s : Store) (tid uid : String)
    (d c : Int) (desc : String) :
    (createLedgerEntry s tid uid d c desc).devices = s.devices := by
  simp [createLedgerEntry]

@[simp] lemma createLedgerEntry_referrals (s : Store) (tid uid : String)
    (d c : Int) (desc : String) :
    (createLedgerEntry s tid uid d c desc).referrals = s.referrals := by
  simp [createLedgerEntry]

@[simp] lemma createLedgerEntry_idem (s : Store) (tid uid : String)
    (d c : Int) (desc : String) :
    (createLedgerEntry s tid uid d c desc).idem = s.idem := by
  simp [createLedgerEntry]

@[simp] lemma createLedgerEntry_memCache (s : Store) (tid uid : String)
    (d c : Int) (desc : String) :
    (createLedgerEntry s tid uid d c desc).memCache = s.memCache := by
  simp [createLedgerEntry]

lemma recordTransaction_ledgerEntries_credit (s : Store) (tx : Transaction)
    (h : tx.type = TxType.deposit ∨ tx.type = TxType.referral_payout ∨
      tx.type = TxType.escrow_release) :
    ∃ e : LedgerEntry,
      (recordTransaction s tx).ledgerEntries = s.ledgerEntries ++ [e] ∧
        e.transactionId = tx.id ∧ e.userId = tx.userId ∧
        e.debit = 0 ∧ e.credit = tx.amount := by
  refine ⟨mkLedgerEntry s tx.id tx.userId 0 tx.amount
    (tx.type.str ++ " - " ++ tx.reference), ?_, rfl, rfl, rfl, rfl⟩
  rcases h with h | h | h <;> simp [recordTransaction, h]

lemma recordTransaction_ledgerEntries_debit (s : Store) (tx : Transaction)
    (h : tx.type = TxType.withdrawal ∨ tx.type = TxType.fee) :
    ∃ e : LedgerEntry,
      (recordTransaction s tx).ledgerEntries = s.ledgerEntries ++ [e] ∧
        e.transactionId = tx.id ∧ e.userId = tx.userId ∧
        e.debit = tx.amount ∧ e.credit = 0 := by
  refine ⟨mkLedgerEntry s tx.id tx.userId tx.amount 0
    (tx.type.str ++ " - " ++ tx.reference), ?_, rfl, rfl, rfl, rfl⟩
  rcases h with h | h <;> simp [recordTransaction, h]

@[simp] lemma recordTransaction_transactions (s : Store) (tx : Transaction) :
    (recordTransaction s tx).transactions = s.transactions := by
  cases h : tx.type <;> simp [recordTransaction, h]

@[simp] lemma recordTransaction_users (s : Store) (tx : Transaction) :
    (recordTransaction s tx).users = s.users := by
  cases h : tx.type <;> simp [recordTransaction, h]

@[simp] lemma recordTransaction_devices (s : Store) (tx : Transaction) :
    (recordTransaction s tx).devices = s.devices := by
  cases h : tx.type <;> simp [recordTransaction, h]

@[simp] lemma recordTransaction_referrals (s : Store) (tx : Transaction) :
    (recordTransaction s tx).referrals = s.referrals := by
  cases h : tx.type <;> simp [recordTransaction, h]

@[simp] lemma recordTransaction_idem (s : Store) (tx : Transaction) :
    (recordTransaction s tx).idem = s.idem := by
  cases h : tx.type <;> simp [recordTransaction, h]

@[simp] lemma recordTransaction_memCache (s : Store) (tx : Transaction) :
    (recordTransaction s tx).memCache = s.memCache := by
  cases h : tx.type <;> simp [recordTransaction, h]

/-! ## Claims C3, C9, C8: escrow release and cancellation -/

lemma escrowFetch_status (refs : List Referral) (rid : String) (r : Referral)
    (h : escrowFetch refs rid = some r) :
    r.id = rid ∧ r.status = RefStatus.escrow ∧ r ∈ refs := by
  have hp := List.find?_some h
  have hm := List.mem_of_find?_eq_some h
  simp only [escrowFetch] at hp
  simp only [Bool.and_eq_true, beq_iff_eq] at hp
  exact ⟨hp.1, hp.2, hm⟩

/-- Claim C3: releaseEscrow on a referral still in escrow whose release date
lies in the future throws and leaves the store untouched; once the date has
passed and a correlated pending transaction exists, it marks the referral
paid, flips that transaction to completed with type escrow_release, and posts
exactly one credit ledger entry for the transaction amount. -/
theorem releaseEscrow_ordering :
    (∀ (s : Store) (rid : String) (now : Nat) (r : Referral),
        escrowFetch s.referrals rid = some r →
        now < r.escrowReleaseDate →
        releaseEscrow s rid now =
          (s, Except.error ("Escrow release date not reached: " ++
            toString r.escrowReleaseDate))) ∧
    (∀ (s : Store) (rid : String) (now : Nat) (r : Referral) (tx : Transaction),
        escrowFetch s.referrals rid = some r →
        r.escrowReleaseDate ≤ now →
        pendingRefTxFetch s.transactions rid = some tx →
        r.status = RefStatus.escrow ∧
        (releaseEscrow s rid now).2 = Except.ok () ∧
        (∀ q ∈ (releaseEscrow s rid now).1.referrals,
          q.id = rid → q.status = RefStatus.paid) ∧
        (∀ q ∈ (releaseEscrow s rid now).1.transactions,
          q.id = tx.id → q.status = TxStatus.completed ∧ q.type = TxType.escrow_release) ∧
        (∃ e : LedgerEntry,
          (releaseEscrow s rid now).1.ledgerEntries = s.ledgerEntries ++ [e] ∧
            e.transactionId = tx.id ∧ e.userId = tx.userId ∧
            e.debit = 0 ∧ e.credit = tx.amount)) := by
  constructor
  · intro s rid now r h1 h2
    simp [releaseEscrow, h1, h2]
  · intro s rid now r tx h1 h2 h3
    have hnlt : ¬ now < r.escrowReleaseDate := not_lt.mpr h2
    have hrs := (escrowFetch_status s.referrals rid r h1).2.1
    have hrefs : (releaseEscrow s rid now).1.referrals =
        s.referrals.map (fun q => setReferralPaid q rid) := by
      simp [releaseEscrow, h1, hnlt, h3]
    have htxs : (releaseEscrow s rid now).1.transactions =
        s.transactions.map (fun t => setTxEscrowReleased t tx.id now) := by
      simp [releaseEscrow, h1, hnlt, h3]
    refine ⟨hrs, by simp [releaseEscrow, h1, hnlt, h3], ?_, ?_, ?_⟩
    · intro q hq hid
      rw [hrefs] at hq
      rcases List.mem_map.1 hq with ⟨p, _, rfl⟩
      unfold setReferralPaid at hid ⊢
      by_cases hc : (p.id == rid) = true
      · simp [hc]
      · simp [hc] at hid ⊢
        exact absurd hid (by simpa using hc)
    · intro q hq hid
      rw [htxs] at hq
      rcases List.mem_map.1 hq with ⟨p, _, rfl⟩
      unfold setTxEscrowReleased at hid ⊢
      by_cases hc : (p.id == tx.id) = true
      · simp [hc]
      · simp [hc] at hid ⊢
        exact absurd hid (by simpa using hc)
    · have hcred := recordTransaction_ledgerEntries_credit
        { s with
            referrals := s.referrals.map (fun q => setReferralPaid q rid)
            transactions := s.transactions.map (fun t => setTxEscrowReleased t tx.id now) }
        { tx with
            type := TxType.escrow_release
            status := TxStatus.completed
            processedAt := some now }
        (Or.inr (Or.inr rfl))
      rcases hcred with ⟨e, he, he1, he2, he3, he4⟩
      refine ⟨e, ?_, he1, he2, he3, he4⟩
      have hled : (releaseEscrow s rid now).1.ledgerEntries =
          s.ledgerEntries ++ [e] := by
        simp only [releaseEscrow, h1, hnlt, h3]
        simpa using he
      exact hled

/-- Claim C9: releaseEscrow on a due escrow referral with no correlated
pending transaction still marks the referral paid and succeeds, updating no
transaction, posting no ledger entry, and touching no balance row. -/
theorem releaseEscrow_missing_transaction
    (s : Store) (rid : String) (now : Nat) (r : Referral)
    (h1 : escrowFetch s.referrals rid = some r)
    (h2 : r.escrowReleaseDate ≤ now)
    (h3 : pendingRefTxFetch s.transactions rid = none) :
    (releaseEscrow s rid now).2 = Except.ok () ∧
    (releaseEscrow s rid now).1.transactions = s.transactions ∧
    (releaseEscrow s rid now).1.ledgerEntries = s.ledgerEntries ∧
    (releaseEscrow s rid now).1.balances = s.balances ∧
    (∀ q ∈ (releaseEscrow s rid now).1.referrals,
      q.id = rid → q.status = RefStatus.paid) := by
  have hnlt : ¬ now < r.escrowReleaseDate := not_lt.mpr h2
  have hrefs : (releaseEscrow s rid now).1.referrals =
      s.referrals.map (fun q => setReferralPaid q rid) := by
    simp [releaseEscrow, h1, hnlt, h3]
  refine ⟨by simp [releaseEscrow, h1, hnlt, h3],
    by simp [releaseEscrow, h1, hnlt, h3],
    by simp [releaseEscrow, h1, hnlt, h3],
    by simp [releaseEscrow, h1, hnlt, h3], ?_⟩
  intro q hq hid
  rw [hrefs] at hq
  rcases List.mem_map.1 hq with ⟨p, _, rfl⟩
  unfold setReferralPaid at hid ⊢
  by_cases hc : (p.id == rid) = true
  · simp [hc]
  · simp [hc] at hid ⊢
    exact absurd hid (by simpa using hc)

lemma releaseEscrow_referrals_shape (s : Store) (rid : String) (now : Nat) :
    (releaseEscrow s rid now).1.referrals = s.referrals ∨
      (∃ r, escrowFetch s.referrals rid = some r ∧
        (releaseEscrow s rid now).1.referrals =
          s.referrals.map (fun q => setReferralPaid q rid)) := by
  unfold releaseEscrow
  cases hf : escrowFetch s.referrals rid with
  | none => exact Or.inl rfl
  | some r =>
    by_cases hlt : now < r.escrowReleaseDate
    · simp only [hlt, if_true]
      left
      trivial
    · simp only [hlt, if_false]
      cases ht : pendingRefTxFetch s.transactions rid with
      | none => exact Or.inr ⟨r, rfl, rfl⟩
      | some tx => exact Or.inr ⟨r, rfl, by simp⟩

lemma releaseEscrow_status_mono (s : Store) (rid : String) (now : Nat)
    (hnd : (s.referrals.map Referral.id).Nodup) :
    ∀ (i : Nat) (p q : Referral), s.referrals[i]? = some p →
      (releaseEscrow s rid now).1.referrals[i]? = some q →
      (q.status = p.status ∨ (p.status = RefStatus.escrow ∧ q.status = RefStatus.paid)) ∧
        (q.status = RefStatus.escrow → p.status = RefStatus.escrow) := by
  intro i p q hp hq
  rcases releaseEscrow_referrals_shape s rid now with hsh | ⟨r, hr, hsh⟩
  · rw [hsh, hp] at hq
    cases hq
    exact ⟨Or.inl rfl, fun h => h⟩
  · rw [hsh] at hq
    rw [List.getElem?_map, hp] at hq
    have hq2 : setReferralPaid p rid = q := by simpa using hq
    subst hq2
    unfold setReferralPaid
    by_cases hc : (p.id == rid) = true
    · rcases escrowFetch_status s.referrals rid r hr with ⟨hrid, hrst, hrmem⟩
      have hpm : p ∈ s.referrals := List.getElem?_mem hp
      have hpid : p.id = rid := by simpa using hc
      have hpr : p = r :=
        List.inj_on_of_nodup_map hnd hpm hrmem (by rw [hpid, hrid])
      subst hpr
      simp [hc, hrst]
    · simp [hc]

lemma cancelReferral_status_shape (s : Store) (rid reason : String) :
    ∀ (i : Nat) (p q : Referral), s.referrals[i]? = some p →
      (cancelReferral s rid reason).1.referrals[i]? = some q →
      (q.status = p.status ∨ q.status = RefStatus.cancelled) ∧
        (q.status = RefStatus.escrow → p.status = RefStatus.escrow) := by
  intro i p q hp hq
  unfold cancelReferral at hq
  cases hf : s.referrals.find? (fun r => r.id == rid) with
  | none =>
    rw [hf] at hq
    rw [hp] at hq
    cases hq
    exact ⟨Or.inl rfl, fun h => h⟩
  | some r =>
    rw [hf] at hq
    simp only at hq
    rw [List.getElem?_map, hp] at hq
    have hq2 : setReferralCancelled p rid = q := by simpa using hq
    subst hq2
    unfold setReferralCancelled
    by_cases hc : (p.id == rid) = true
    · simp [hc]
    · simp [hc]

/-- Claim C8 (amended): releaseEscrow only ever changes a referral's status
from escrow to paid, and no operation ever sets a status back to escrow; but
cancelReferral carries no status guard, so it moves the targeted referral to
cancelled from any state, including paid. -/
theorem referral_status_transitions (s : Store) (rid reason : String) (now : Nat)
    (hnd : (s.referrals.map Referral.id).Nodup) :
    (∀ (i : Nat) (p q : Referral), s.referrals[i]? = some p →
        (releaseEscrow s rid now).1.referrals[i]? = some q →
        (q.status = p.status ∨
            (p.status = RefStatus.escrow ∧ q.status = RefStatus.paid)) ∧
          (q.status = RefStatus.escrow → p.status = RefStatus.escrow)) ∧
    (∀ (i : Nat) (p q : Referral), s.referrals[i]? = some p →
        (cancelReferral s rid reason).1.referrals[i]? = some q →
        (q.status = p.status ∨ q.status = RefStatus.cancelled) ∧
          (q.status = RefStatus.escrow → p.status = RefStatus.escrow)) :=
  ⟨releaseEscrow_status_mono s rid now hnd,
    cancelReferral_status_shape s rid reason⟩

/-! ## Concrete stores used by the witnesses -/

def emptyStore : Store :=
  { transactions := [], ledgerEntries := [], balances := [], users := []
    devices := [], referrals := [], idem := [], memCache := [] }

def refA : Referral :=
  { id := "r1", referrerId := "alice", referredId := "bob", amount := 100
    status := RefStatus.escrow, escrowReleaseDate := 1000, createdAt := 0 }

def txA : Transaction :=
  { id := "t1", userId := "alice", type := TxType.referral_payout, amount := 100
    status := TxStatus.pending, reference := "REF-r1", isSignup := false
    email := none, deviceFingerprint := none, createdAt := 0, processedAt := none }

def escrowStore : Store :=
  { emptyStore with referrals := [refA], transactions := [txA] }

def escrowOnlyStore : Store := { emptyStore with referrals := [refA] }

def paidStore : Store :=
  { emptyStore with referrals := [{ refA with status := RefStatus.paid }] }

theorem releaseEscrow_ordering_witness :
    (escrowFetch escrowStore.referrals "r1" = some refA ∧
      (500 : Nat) < refA.escrowReleaseDate ∧
      releaseEscrow escrowStore "r1" 500 =
        (escrowStore, Except.error ("Escrow release date not reached: " ++
          toString refA.escrowReleaseDate))) ∧
    (refA.escrowReleaseDate ≤ 2000 ∧
      pendingRefTxFetch escrowStore.transactions "r1" = some txA ∧
      refA.status = RefStatus.escrow ∧
      (releaseEscrow escrowStore "r1" 2000).2 = Except.ok () ∧
      (∀ q ∈ (releaseEscrow escrowStore "r1" 2000).1.referrals,
        q.id = "r1" → q.status = RefStatus.paid) ∧
      (∀ q ∈ (releaseEscrow escrowStore "r1" 2000).1.transactions,
        q.id = txA.id → q.status = TxStatus.completed ∧ q.type = TxType.escrow_release) ∧
      (∃ e : LedgerEntry,
        (releaseEscrow escrowStore "r1" 2000).1.ledgerEntries =
            escrowStore.ledgerEntries ++ [e] ∧
          e.transactionId = txA.id ∧ e.userId = txA.userId ∧
          e.debit = 0 ∧ e.credit = txA.amount)) := by
  constructor
  · exact ⟨rfl, by decide,
      releaseEscrow_ordering.1 escrowStore "r1" 500 refA rfl (by decide)⟩
  · refine ⟨by decide, rfl, ?_⟩
    exact releaseEscrow_ordering.2 escrowStore "r1" 2000 refA txA rfl (by decide) rfl

theorem releaseEscrow_missing_transaction_witness :
    escrowFetch escrowOnlyStore.referrals "r1" = some refA ∧
    refA.escrowReleaseDate ≤ 2000 ∧
    pendingRefTxFetch escrowOnlyStore.transactions "r1" = none ∧
    ((releaseEscrow escrowOnlyStore "r1" 2000).2 = Except.ok () ∧
      (releaseEscrow escrowOnlyStore "r1" 2000).1.transactions =
        escrowOnlyStore.transactions ∧
      (releaseEscrow escrowOnlyStore "r1" 2000).1.ledgerEntries =
        escrowOnlyStore.ledgerEntries ∧
      (releaseEscrow escrowOnlyStore "r1" 2000).1.balances =
        escrowOnlyStore.balances ∧
      (∀ q ∈ (releaseEscrow escrowOnlyStore "r1" 2000).1.referrals,
        q.id = "r1" → q.status = RefStatus.paid)) :=
  ⟨rfl, by decide, rfl,
    releaseEscrow_missing_transaction escrowOnlyStore "r1" 2000 refA rfl
      (by decide) rfl⟩

theorem referral_status_transitions_witness :
    (escrowStore.referrals.map Referral.id).Nodup ∧
    ((∀ (i : Nat) (p q : Referral), escrowStore.referrals[i]? = some p →
        (releaseEscrow escrowStore "r1" 2000).1.referrals[i]? = some q →
        (q.status = p.status ∨
            (p.status = RefStatus.escrow ∧ q.status = RefStatus.paid)) ∧
          (q.status = RefStatus.escrow → p.status = RefStatus.escrow)) ∧
      (∀ (i : Nat) (p q : Referral), escrowStore.referrals[i]? = some p →
        (cancelReferral escrowStore "r1" "dup").1.referrals[i]? = some q →
        (q.status = p.status ∨ q.status = RefStatus.cancelled) ∧
          (q.status = RefStatus.escrow → p.status = RefStatus.escrow))) :=
  ⟨by decide, referral_status_transitions escrowStore "r1" "dup" 2000 (by decide)⟩

/-- Counterexample to claim C8 as stated: cancelReferral applied to a
referral that is already paid moves it from paid to cancelled, a transition
between the two terminal states that the claim rules out. -/
theorem cancelReferral_paid_to_cancelled :
    paidStore.referrals.map Referral.status = [RefStatus.paid] ∧
    (cancelReferral paidStore "r1" "abuse").1.referrals.map Referral.status =
      [RefStatus.cancelled] ∧
    (cancelReferral paidStore "r1" "abuse").2 = Except.ok () := by
  refine ⟨rfl, rfl, rfl⟩

/-! ## Fraud Risk Gate: referral velocity (fraudPrevention service) -/

/-- Fraud gate output contract. -/
structure FraudCheckResult where
  isFraudulent : Bool
  riskScore : Nat
  reasons : List String
deriving DecidableEq, Repr

/-- The recent-referrals query of checkReferralVelocity: referrals by the
referrer created at or after now minus the window (gte on created_at). -/
def recentReferralsQuery (s : Store) (referrerId : String)
    (now timeWindowMinutes : Nat) : List Referral :=
  s.referrals.filter fun r =>
    r.referrerId == referrerId &&
      decide (now - timeWindowMinutes * 60000 ≤ r.createdAt)

/-- checkReferralVelocity (fraud prevention service lines 68-113), applied to
the outcome of the recent-referrals query.  A query error is handled by the
explicit error branch: the check fails open with a zero score.  Note the two
threshold branches are separate if statements, not an else-if chain: for a
count of five or more both fire. -/
def checkReferralVelocity (queryResult : Except String (List Referral))
    (timeWindowMinutes : Nat) : FraudCheckResult :=
  match queryResult with
  | Except.error _ => { isFraudulent := false, riskScore := 0, reasons := [] }
  | Except.ok recentReferrals =>
    let referralCount := recentReferrals.length
    if referralCount ≥ 10 then
      { isFraudulent := true
        riskScore := 100
        reasons := ["Excessive referrals: " ++ toString referralCount ++
          " in " ++ toString timeWindowMinutes ++ " minutes"] }
    else
      let score1 : Nat := if referralCount ≥ 5 then 40 else 0
      let reasons1 : List String :=
        if referralCount ≥ 5 then
          ["High referral velocity: " ++ toString referralCount ++ " in " ++
            toString timeWindowMinutes ++ " minutes"]
        else []
      let score2 : Nat := if referralCount ≥ 3 then 20 else 0
      let reasons2 : List String :=
        if referralCount ≥ 3 then
          ["Moderate referral velocity: " ++ toString referralCount ++ " in " ++
            toString timeWindowMinutes ++ " minutes"]
        else []
      { isFraudulent := decide (score1 + score2 ≥ 70)
        riskScore := score1 + score2
        reasons := reasons1 ++ reasons2 }

/-- Claim C4 (amended): with exactly n referrals inside the window, a count of
ten or more short-circuits to score 100 and fraudulent; for five to nine BOTH
the high (+40) and moderate (+20) rules fire, a total contribution of 60,
non-fraudulent; for three or four only the moderate +20 fires, non-fraudulent;
below three the score is 0; and the result is fraudulent exactly when the
total score reaches 70. -/
theorem checkReferralVelocity_thresholds (s : Store) (referrerId : String)
    (now w n : Nat)
    (hn : (recentReferralsQuery s referrerId now w).length = n) :
    ((10 ≤ n →
        (checkReferralVelocity (Except.ok (recentReferralsQuery s referrerId now w)) w).riskScore = 100 ∧
        (checkReferralVelocity (Except.ok (recentReferralsQuery s referrerId now w)) w).isFraudulent = true) ∧
      (5 ≤ n → n < 10 →
        (checkReferralVelocity (Except.ok (recentReferralsQuery s referrerId now w)) w).riskScore = 60 ∧
        (checkReferralVelocity (Except.ok (recentReferralsQuery s referrerId now w)) w).isFraudulent = false) ∧
      (3 ≤ n → n < 5 →
        (checkReferralVelocity (Except.ok (recentReferralsQuery s referrerId now w)) w).riskScore = 20 ∧
        (checkReferralVelocity (Except.ok (recentReferralsQuery s referrerId now w)) w).isFraudulent = false) ∧
      (n < 3 →
        (checkReferralVelocity (Except.ok (recentReferralsQuery s referrerId now w)) w).riskScore = 0 ∧
        (checkReferralVelocity (Except.ok (recentReferralsQuery s referrerId now w)) w).isFraudulent = false)) ∧
      ((checkReferralVelocity (Except.ok (recentReferralsQuery s referrerId now w)) w).isFraudulent = true ↔
        70 ≤ (checkReferralVelocity (Except.ok (recentReferralsQuery s referrerId now w)) w).riskScore) := by
  simp only [checkReferralVelocity, hn]
  by_cases h10 : 10 ≤ n <;> by_cases h5 : 5 ≤ n <;> by_cases h3 : 3 ≤ n <;>
    simp [h10, h5, h3] <;> omega

/-- Claim C10: a query error makes checkReferralVelocity fail open with a
non-fraudulent zero-score empty-reasons result. -/
theorem checkReferralVelocity_fails_open (e : String) (timeWindowMinutes : Nat) :
    checkReferralVelocity (Except.error e) timeWindowMinutes =
      { isFraudulent := false, riskScore := 0, reasons := [] } := rfl

/-- A referral by the referrer vel created inside the velocity window of the
witness scenario. -/
def velRef (i : String) : Referral :=
  { id := i, referrerId := "vel", referredId := "u-" ++ i, amount := 10
    status := RefStatus.escrow, escrowReleaseDate := 0, createdAt := 9000000 }

def velocityStore : Store :=
  { emptyStore with
      referrals := [velRef "v1", velRef "v2", velRef "v3", velRef "v4", velRef "v5"] }

/-- Counterexample to claim C4 as stated: with exactly five referrals inside
the 60-minute window the velocity check contributes 60, not 40, because the
five-or-more and three-or-more branches are independent if statements and both
fire. -/
theorem checkReferralVelocity_five_is_sixty :
    (recentReferralsQuery velocityStore "vel" 10000000 60).length = 5 ∧
    (checkReferralVelocity
        (Except.ok (recentReferralsQuery velocityStore "vel" 10000000 60)) 60).riskScore = 60 ∧
    (checkReferralVelocity
        (Except.ok (recentReferralsQuery velocityStore "vel" 10000000 60)) 60).riskScore ≠ 40 ∧
    (checkReferralVelocity
        (Except.ok (recentReferralsQuery velocityStore "vel" 10000000 60)) 60).isFraudulent = false := by
  refine ⟨rfl, rfl, by decide, rfl⟩

theorem checkReferralVelocity_thresholds_witness :
    (recentReferralsQuery velocityStore "vel" 10000000 60).length = 5 ∧
    (((10 ≤ 5 →
        (checkReferralVelocity (Except.ok (recentReferralsQuery velocityStore "vel" 10000000 60)) 60).riskScore = 100 ∧
        (checkReferralVelocity (Except.ok (recentReferralsQuery velocityStore "vel" 10000000 60)) 60).isFraudulent = true) ∧
      (5 ≤ 5 → 5 < 10 →
        (checkReferralVelocity (Except.ok (recentReferralsQuery velocityStore "vel" 10000000 60)) 60).riskScore = 60 ∧
        (checkReferralVelocity (Except.ok (recentReferralsQuery velocityStore "vel" 10000000 60)) 60).isFraudulent = false) ∧
      (3 ≤ 5 → 5 < 5 →
        (checkReferralVelocity (Except.ok (recentReferralsQuery velocityStore "vel" 10000000 60)) 60).riskScore = 20 ∧
        (checkReferralVelocity (Except.ok (recentReferralsQuery velocityStore "vel" 10000000 60)) 60).isFraudulent = false) ∧
      (5 < 3 →
        (checkReferralVelocity (Except.ok (recentReferralsQuery velocityStore "vel" 10000000 60)) 60).riskScore = 0 ∧
        (checkReferralVelocity (Except.ok (recentReferralsQuery velocityStore "vel" 10000000 60)) 60).isFraudulent = false)) ∧
      ((checkReferralVelocity (Except.ok (recentReferralsQuery velocityStore "vel" 10000000 60)) 60).isFraudulent = true ↔
        70 ≤ (checkReferralVelocity (Except.ok (recentReferralsQuery velocityStore "vel" 10000000 60)) 60).riskScore)) :=
  ⟨rfl, checkReferralVelocity_thresholds velocityStore "vel" 10000000 60 5 rfl⟩

/-! ## Withdrawal Tier Limiter (withdrawalLimits service) -/

structure TierRequirements where
  minTransactions : Nat
  minAccountAge : Nat
  kycVerified : Bool
deriving DecidableEq, Repr

structure WithdrawalTier where
  tier : Nat
  name : String
  dailyLimit : Int
  monthlyLimit : Int
  requirements : TierRequirements
deriving DecidableEq, Repr

def basicTier : WithdrawalTier :=
  { tier := 1
    name := "Basic"
    dailyLimit := 5000
    monthlyLimit := 50000
    requirements := { minTransactions := 0, minAccountAge := 0, kycVerified := false } }

def standardTier : WithdrawalTier :=
  { tier := 2
    name := "Standard"
    dailyLimit := 20000
    monthlyLimit := 200000
    requirements := { minTransactions := 5, minAccountAge := 7, kycVerified := false } }

def premiumTier : WithdrawalTier :=
  { tier := 3
    name := "Premium"
    dailyLimit := 100000
    monthlyLimit := 1000000
    requirements := { minTransactions := 20, minAccountAge := 30, kycVerified := true } }

def enterpriseTier : WithdrawalTier :=
  { tier := 4
    name := "Enterprise"
    dailyLimit := 500000
    monthlyLimit := 5000000
    requirements := { minTransactions := 100, minAccountAge := 90, kycVerified := true } }

/-- The four static tiers, ascending. -/
def tiers : List WithdrawalTier :=
  [basicTier, standardTier, premiumTier, enterpriseTier]

/-- One tier qualification test of the getUserTier loop body. -/
def tierQualifies (t : WithdrawalTier) (transactionCount accountAge : Nat)
    (kycVerified : Bool) : Bool :=
  decide (transactionCount ≥ t.requirements.minTransactions) &&
    decide (accountAge ≥ t.requirements.minAccountAge) &&
    (!t.requirements.kycVerified || kycVerified)

/-- The descending scan of getUserTier (loop from the highest tier down),
falling back to the lowest tier. -/
def tierScan (transactionCount accountAge : Nat) (kycVerified : Bool) :
    WithdrawalTier :=
  match tiers.reverse.find?
      (fun t => tierQualifies t transactionCount accountAge kycVerified) with
  | some t => t
  | none => basicTier

/-- The completed-transactions query of getUserTier (all completed
transactions of the user). -/
def completedTxQuery (s : Store) (userId : String) : List Transaction :=
  s.transactions.filter fun t =>
    t.userId == userId && t.status == TxStatus.completed

/-- Account age in whole days, as the code computes it. -/
def accountAgeDays (now createdAt : Nat) : Nat :=
  (now - createdAt) / 86400000

/-- The data field of a supabase response to a query issued with the head
option set: a head request returns only a count header and NO row data, so the
data field is null whatever rows match. -/
def headCountData (_rows : List Transaction) : Option (List Transaction) := none

/-- getUserTier as the code behaves: the transaction-count query is issued
with \x7b count: exact, head: true \x7d, so its data field is null, and the
code then computes transactions?.length || 0 from that null data, which is
always zero.  The intended count is never read from the count field. -/
def getUserTier (s : Store) (userId : String) (now : Nat) : WithdrawalTier :=
  match s.users.find? (fun u => u.id == userId) with
  | none => basicTier
  | some user =>
    let transactionCount : Nat :=
      ((headCountData (completedTxQuery s userId)).map List.length).getD 0
    tierScan transactionCount (accountAgeDays now user.createdAt) user.kycVerified

/-- Tier selection following the words of the spec (and the evident intent of
the code): the scan uses the user's actual completed-transaction count. -/
def getUserTierSpec (s : Store) (userId : String) (now : Nat) : WithdrawalTier :=
  match s.users.find? (fun u => u.id == userId) with
  | none => basicTier
  | some user =>
    tierScan (completedTxQuery s userId).length
      (accountAgeDays now user.createdAt) user.kycVerified

/-- The demo user of the tier scenario: ten days old at the scenario time,
not KYC verified. -/
def userU1 : User :=
  { id := "u1"
    email := "u1@example.com"
    phoneNumber := "254"
    kycVerified := false
    createdAt := 0 }

/-- A completed deposit of the demo user. -/
def depositTx (i : String) : Transaction :=
  { id := i
    userId := "u1"
    type := TxType.deposit
    amount := 50
    status := TxStatus.completed
    reference := "D-" ++ i
    isSignup := false
    email := none
    deviceFingerprint := none
    createdAt := 0
    processedAt := some 0 }

/-- A user aged ten days with five completed transactions and no KYC. -/
def tierDemoStore : Store :=
  { emptyStore with
      users := [userU1]
      transactions :=
        [depositTx "d1", depositTx "d2", depositTx "d3", depositTx "d4",
          depositTx "d5"] }

/-- Claim C7, failing input: a ten-day-old non-KYC user with five completed
transactions satisfies every Standard-tier threshold, and the spec-worded scan
returns Standard; but getUserTier returns Basic, because the head-mode count
query yields no row data and the code reads the length of that null data (always
zero) instead of the count.  The tier thresholds above Basic are unreachable. -/
theorem getUserTier_head_count_divergence :
    (completedTxQuery tierDemoStore "u1").length = 5 ∧
    accountAgeDays 864000000 0 = 10 ∧
    getUserTierSpec tierDemoStore "u1" 864000000 = standardTier ∧
    getUserTier tierDemoStore "u1" 864000000 = basicTier ∧
    getUserTier tierDemoStore "u1" 864000000 ≠
      getUserTierSpec tierDemoStore "u1" 864000000 := by
  refine ⟨rfl, rfl, rfl, rfl, by decide⟩

/-- Withdrawal check output contract. -/
structure WithdrawalLimitCheck where
  allowed : Bool
  reason : Option String
  dailyRemaining : Int
  monthlyRemaining : Int
  currentTier : WithdrawalTier
deriving DecidableEq, Repr

/-- The withdrawal-sum query of checkWithdrawalLimit: the user's completed
withdrawals with processed_at at or after the given instant (rows with no
processed_at never satisfy the gte filter). -/
def withdrawalsSince (s : Store) (userId : String) (since : Nat) :
    List Transaction :=
  s.transactions.filter fun t =>
    t.userId == userId && t.type == TxType.withdrawal &&
      t.status == TxStatus.completed &&
      (match t.processedAt with
        | some p => decide (since ≤ p)
        | none => false)

/-- The amount reduce of checkWithdrawalLimit. -/
def sumAmounts (txs : List Transaction) : Int :=
  txs.foldl (fun acc t => acc + t.amount) 0

/-- checkWithdrawalLimit (withdrawalLimits service lines 111-181).  The local
midnight and the first of the month computed by the code from the wall clock
are passed in as instants. -/
def checkWithdrawalLimit (s : Store) (userId : String) (amount : Int)
    (now midnight monthStart : Nat) : WithdrawalLimitCheck :=
  let tier := getUserTier s userId now
  let dailyUsed := sumAmounts (withdrawalsSince s userId midnight)
  let dailyRemaining := max 0 (tier.dailyLimit - dailyUsed)
  let monthlyUsed := sumAmounts (withdrawalsSince s userId monthStart)
  let monthlyRemaining := max 0 (tier.monthlyLimit - monthlyUsed)
  if amount > dailyRemaining then
    { allowed := false
      reason := some ("Daily limit exceeded. Remaining: " ++ toString dailyRemaining)
      dailyRemaining := dailyRemaining
      monthlyRemaining := monthlyRemaining
      currentTier := tier }
  else if amount > monthlyRemaining then
    { allowed := false
      reason := some ("Monthly limit exceeded. Remaining: " ++ toString monthlyRemaining)
      dailyRemaining := dailyRemaining
      monthlyRemaining := monthlyRemaining
      currentTier := tier }
  else
    { allowed := true
      reason := none
      dailyRemaining := dailyRemaining - amount
      monthlyRemaining := monthlyRemaining - amount
      currentTier := tier }

/-- Daily headroom as the spec words it: the tier's daily limit less the sum
of completed withdrawals processed since local midnight, floored at zero. -/
def dailyRemainingSpec (s : Store) (userId : String) (midnight now : Nat) : Int :=
  max 0 ((getUserTier s userId now).dailyLimit -
    ((withdrawalsSince s userId midnight).map (fun t => t.amount)).sum)

/-- Monthly headroom as the spec words it. -/
def monthlyRemainingSpec (s : Store) (userId : String) (monthStart now : Nat) : Int :=
  max 0 ((getUserTier s userId now).monthlyLimit -
    ((withdrawalsSince s userId monthStart).map (fun t => t.amount)).sum)

lemma sumAmounts_eq_map_sum (txs : List Transaction) :
    sumAmounts txs = (txs.map (fun t => t.amount)).sum := by
  have h : ∀ (a : Int), txs.foldl (fun acc t => acc + t.amount) a =
      a + (txs.map (fun t => t.amount)).sum := by
    induction txs with
    | nil => intro a; simp
    | cons hd tl ih =>
      intro a
      simp only [List.foldl_cons, List.map_cons, List.sum_cons, ih]
      ring
  simpa using h 0

/-- The scenario store of claim C6: a fresh (Basic-tier) user who has already
withdrawn 4800 today. -/
def withdrawScenarioStore : Store :=
  { emptyStore with
      users := [{ userU1 with id := "wu" }]
      transactions :=
        [{ depositTx "w1" with
            userId := "wu"
            type := TxType.withdrawal
            amount := 4800
            processedAt := some 1500 }] }

/-- Claim C6: checkWithdrawalLimit derives daily and monthly headroom from the
completed withdrawals processed since midnight and since the first of the
month, denies when the amount exceeds either headroom checking daily first,
and on approval returns the simulated post-withdrawal remaining values; in
particular the Basic-tier user who withdrew 4800 today and requests 500 is
denied with dailyRemaining 200. -/
theorem checkWithdrawalLimit_spec :
    (∀ (s : Store) (u : String) (amount : Int) (now midnight monthStart : Nat),
      (checkWithdrawalLimit s u amount now midnight monthStart).currentTier =
          getUserTier s u now ∧
        ((checkWithdrawalLimit s u amount now midnight monthStart).allowed = false ↔
          (amount > dailyRemainingSpec s u midnight now ∨
            amount > monthlyRemainingSpec s u monthStart now)) ∧
        (amount > dailyRemainingSpec s u midnight now →
          checkWithdrawalLimit s u amount now midnight monthStart =
            { allowed := false
              reason := some ("Daily limit exceeded. Remaining: " ++
                toString (dailyRemainingSpec s u midnight now))
              dailyRemaining := dailyRemainingSpec s u midnight now
              monthlyRemaining := monthlyRemainingSpec s u monthStart now
              currentTier := getUserTier s u now }) ∧
        (amount ≤ dailyRemainingSpec s u midnight now →
          amount > monthlyRemainingSpec s u monthStart now →
          checkWithdrawalLimit s u amount now midnight monthStart =
            { allowed := false
              reason := some ("Monthly limit exceeded. Remaining: " ++
                toString (monthlyRemainingSpec s u monthStart now))
              dailyRemaining := dailyRemainingSpec s u midnight now
              monthlyRemaining := monthlyRemainingSpec s u monthStart now
              currentTier := getUserTier s u now }) ∧
        (amount ≤ dailyRemainingSpec s u midnight now →
          amount ≤ monthlyRemainingSpec s u monthStart now →
          checkWithdrawalLimit s u amount now midnight monthStart =
            { allowed := true
              reason := none
              dailyRemaining := dailyRemainingSpec s u midnight now - amount
              monthlyRemaining := monthlyRemainingSpec s u monthStart now - amount
              currentTier := getUserTier s u now })) ∧
    ((getUserTier withdrawScenarioStore "wu" 1).name = "Basic" ∧
      (getUserTier withdrawScenarioStore "wu" 1).dailyLimit = 5000 ∧
      (checkWithdrawalLimit withdrawScenarioStore "wu" 500 1 1000 500).allowed = false ∧
      (checkWithdrawalLimit withdrawScenarioStore "wu" 500 1 1000 500).dailyRemaining = 200) := by
  constructor
  · intro s u amount now midnight monthStart
    simp only [checkWithdrawalLimit, dailyRemainingSpec, monthlyRemainingSpec,
      sumAmounts_eq_map_sum]
    by_cases hd : amount > max 0 ((getUserTier s u now).dailyLimit -
        ((withdrawalsSince s u midnight).map (fun t => t.amount)).sum)
    · simp [hd] <;> omega
    · by_cases hm : amount > max 0 ((getUserTier s u now).monthlyLimit -
          ((withdrawalsSince s u monthStart).map (fun t => t.amount)).sum)
      · simp [hd, hm] <;> omega
      · simp [hd, hm] <;> omega
  · refine ⟨rfl, rfl, rfl, rfl⟩

theorem checkWithdrawalLimit_spec_witness :
    (500 : Int) > dailyRemainingSpec withdrawScenarioStore "wu" 1000 1 ∧
    checkWithdrawalLimit withdrawScenarioStore "wu" 500 1 1000 500 =
      { allowed := false
        reason := some ("Daily limit exceeded. Remaining: " ++
          toString (dailyRemainingSpec withdrawScenarioStore "wu" 1000 1))
        dailyRemaining := dailyRemainingSpec withdrawScenarioStore "wu" 1000 1
        monthlyRemaining := monthlyRemainingSpec withdrawScenarioStore "wu" 500 1
        currentTier := getUserTier withdrawScenarioStore "wu" 1 } :=
  ⟨by decide,
    (checkWithdrawalLimit_spec.1 withdrawScenarioStore "wu" 500 1 1000 500).2.2.1
      (by decide)⟩

/-! ## Claim C5: escrow accounting agreement -/

/-- The user's pending referral_payout transactions: the rows the Ledger
Engine counts into escrowBalance. -/
def pendingPayoutTxs (s : Store) (userId : String) : List Transaction :=
  s.transactions.filter fun t =>
    t.userId == userId && t.type == TxType.referral_payout &&
      t.status == TxStatus.pending

/-- The user's escrow-status referrals: the rows the Escrow service counts
into getEscrowBalance. -/
def escrowReferralsOf (s : Store) (userId : String) : List Referral :=
  s.referrals.filter fun r =>
    r.referrerId == userId && r.status == RefStatus.escrow

lemma getEscrowBalance_eq_map_sum (s : Store) (userId : String) :
    getEscrowBalance s userId =
      ((escrowReferralsOf s userId).map (fun r => r.amount)).sum := by
  unfold getEscrowBalance escrowReferralsOf
  generalize s.referrals.filter _ = l
  have h : ∀ (a : Int), l.foldl (fun sum r => sum + r.amount) a =
      a + (l.map (fun r => r.amount)).sum := by
    induction l with
    | nil => intro a; simp
    | cons hd tl ih =>
      intro a
      simp only [List.foldl_cons, List.map_cons, List.sum_cons, ih]
      ring
  simpa using h 0

lemma pendingPayoutSum_eq (s : Store) (userId : String) :
    pendingPayoutSum s.transactions userId =
      ((pendingPayoutTxs s userId).map (fun t => t.amount)).sum := rfl

/-- Claim C5: whenever the correlation scheme is intact for a user — the
multiset of amounts of the user's pending referral_payout transactions matches
the multiset of amounts of the user's escrow-status referrals, which is
exactly the state outside an in-flight release or a torn referral creation —
the Ledger Engine's escrowBalance equals the Escrow service's
getEscrowBalance. -/
theorem escrow_balance_agreement (s : Store) (userId : String)
    (hcorr : ((pendingPayoutTxs s userId).map (fun t => t.amount)).Perm
      ((escrowReferralsOf s userId).map (fun r => r.amount))) :
    (computeBalanceFromTransactions s userId).1.escrowBalance =
      getEscrowBalance s userId := by
  have h := balanceFold_characterization s.transactions userId 0 0
  simp only [computeBalanceFromTransactions, computeBalancePure, h]
  rw [getEscrowBalance_eq_map_sum]
  have hsum := hcorr.sum_eq
  rw [pendingPayoutSum_eq] at *
  simpa using hsum

theorem escrow_balance_agreement_witness :
    ((pendingPayoutTxs escrowStore "alice").map (fun t => t.amount)).Perm
      ((escrowReferralsOf escrowStore "alice").map (fun r => r.amount)) ∧
    (computeBalanceFromTransactions escrowStore "alice").1.escrowBalance =
      getEscrowBalance escrowStore "alice" :=
  ⟨by decide, escrow_balance_agreement escrowStore "alice" (by decide)⟩

/-! ## Webhook Ingestion Pipeline (src/services/darajaWebhook.ts)

The provider payload is modelled by its consumed projection: the two
correlation ids, the result code and description, and the named metadata items
(amount, receipt number, payer phone) already projected out of the Item list.
The sha256 idempotency hash is modelled by the combined string it hashes: the
model only relies on the key being a deterministic function of the two ids. -/

def IDEMPOTENCY_WINDOW_MS : Nat := 24 * 60 * 60 * 1000

structure CallbackItems where
  amount : Int
  mpesaReceiptNumber : String
  phoneNumber : String
deriving DecidableEq, Repr

structure WebhookEvent where
  merchantRequestId : String
  checkoutRequestId : String
  resultCode : Int
  resultDesc : String
  callbackMetadata : Option CallbackItems
deriving DecidableEq, Repr

/-- The three responses of processWebhook: 200 processed, 200 already
processed (the idempotent no-op), and the 500 of the catch-all. -/
inductive WebhookResponse
  | processed
  | alreadyProcessed
  | serverError
deriving DecidableEq, Repr

/-- generateIdempotencyKey (darajaWebhook.ts lines 169-175): sha256 of
checkoutRequestId:merchantRequestId, modelled by the combined string. -/
def generateIdempotencyKey (checkoutRequestId merchantRequestId : String) :
    String :=
  checkoutRequestId ++ ":" ++ merchantRequestId

def memCacheDelete (m : List (String × Nat)) (key : String) :
    List (String × Nat) :=
  m.filter fun p => p.1 != key

/-- The database half of checkIdempotency (darajaWebhook.ts lines 191-217).
A record without processed_at (a processing-status record) reads as
new Date(null), the epoch, so it always counts as expired. -/
def checkIdempotencyDb (s : Store) (key : String) (now : Nat) : Bool × Store :=
  match s.idem.find? (fun r => r.key == key) with
  | none => (false, s)
  | some row =>
    let p := row.processedAt.getD 0
    if now - p < IDEMPOTENCY_WINDOW_MS then
      (true, { s with memCache := (key, p) :: s.memCache })
    else
      (false, { s with idem := s.idem.filter (fun r => r.key != key) })

/-- checkIdempotency (darajaWebhook.ts lines 180-218): in-memory cache first,
then the persistent record. -/
def checkIdempotency (s : Store) (key : String) (now : Nat) : Bool × Store :=
  match s.memCache.lookup key with
  | some t =>
    if now - t < IDEMPOTENCY_WINDOW_MS then (true, s)
    else checkIdempotencyDb { s with memCache := memCacheDelete s.memCache key } key now
  | none => checkIdempotencyDb s key now

def setIdemProcessing (r : IdemRecord) (key : String) : IdemRecord :=
  if r.key == key then { r with status := IdemStatus.processing } else r

def setIdemCompleted (r : IdemRecord) (key : String) (now : Nat) : IdemRecord :=
  if r.key == key then
    { r with status := IdemStatus.completed, processedAt := some now }
  else r

/-- markAsProcessing (darajaWebhook.ts lines 223-229): upsert of the record
with status processing; the upsert names no processed_at column, so an
existing processed_at is retained and a fresh record has none. -/
def markAsProcessing (s : Store) (key : String) : Store :=
  if s.idem.any (fun r => r.key == key) then
    { s with idem := s.idem.map (fun r => setIdemProcessing r key) }
  else
    { s with idem := s.idem ++
      [{ key := key, status := IdemStatus.processing, processedAt := none }] }

/-- markAsCompleted (darajaWebhook.ts lines 234-246): records the key in the
in-process map, then upserts the record completed with processed_at now. -/
def markAsCompleted (s : Store) (key : String) (now : Nat) : Store :=
  let s1 := { s with memCache := (key, now) :: s.memCache }
  if s1.idem.any (fun r => r.key == key) then
    { s1 with idem := s1.idem.map (fun r => setIdemCompleted r key now) }
  else
    { s1 with idem := s1.idem ++
      [{ key := key, status := IdemStatus.completed, processedAt := some now }] }

def updateTransactionRow (t : Transaction) (txId : String) (status : TxStatus)
    (now : Nat) : Transaction :=
  if t.id == txId then
    { t with
        status := status
        processedAt :=
          if status == TxStatus.completed then some now else t.processedAt }
  else t

/-- updateTransaction (darajaWebhook.ts lines 251-270): status update that
also stamps processed_at when completing. -/
def updateTransaction (s : Store) (txId : String) (status : TxStatus)
    (now : Nat) : Store :=
  { s with transactions := s.transactions.map (fun t => updateTransactionRow t txId status now) }

def setTxUserIdRow (t : Transaction) (txId uid : String) : Transaction :=
  if t.id == txId then { t with userId := uid } else t

def setTxUserId (s : Store) (txId uid : String) : Store :=
  { s with transactions := s.transactions.map (fun t => setTxUserIdRow t txId uid) }

/-- The pending-transaction lookup of processWebhook: the pending transaction
whose reference equals the provider's checkout id. -/
def pendingTxByReference (txs : List Transaction) (reference : String) :
    Option Transaction :=
  txs.find? fun t => t.reference == reference && t.status == TxStatus.pending

/-- handleSignupPayment (darajaWebhook.ts lines 275-391).  The uuid of a
fresh user row is modelled as a function of the email (fresh because no user
with that email exists on this path).  The two throws happen before any write,
so an error leaves the store untouched. -/
def handleSignupPayment (s : Store) (transactionId phoneNumber : String)
    (now : Nat) : Except String Store :=
  match s.transactions.find? (fun t => t.id == transactionId) with
  | none => Except.error "Transaction not found or missing metadata"
  | some tx =>
    match tx.email with
    | none => Except.error "Email not found in transaction metadata"
    | some email =>
      match s.users.find? (fun u => u.email == email) with
      | some existingUser =>
        let s1 := updateTransaction s transactionId TxStatus.completed now
        let s2 := setTxUserId s1 transactionId existingUser.id
        Except.ok (recordTransaction s2
          { tx with
              userId := existingUser.id
              status := TxStatus.completed
              processedAt := some now })
      | none =>
        let newUser : User :=
          { id := "user-" ++ email
            email := email
            phoneNumber := phoneNumber
            kycVerified := false
            createdAt := now }
        let s1 := { s with users := s.users ++ [newUser] }
        let s2 := setTxUserId
          (updateTransaction s1 transactionId TxStatus.completed now)
          transactionId newUser.id
        let s3 :=
          match tx.deviceFingerprint with
          | some fp =>
            { s2 with devices := s2.devices ++
              [{ userId := newUser.id, fingerprintHash := fp }] }
          | none => s2
        Except.ok (recordTransaction s3
          { tx with
              userId := newUser.id
              status := TxStatus.completed
              processedAt := some now })

/-- processWebhook (darajaWebhook.ts lines 22-164).  The audit-log writes are
fire-and-forget observability and are outside the store model.  An error
thrown inside the branch is caught by the surrounding try, which responds 500
and skips markAsCompleted; on that path the branch has performed no write
yet. -/
def processWebhook (s : Store) (ev : WebhookEvent) (now : Nat) :
    Store × WebhookResponse :=
  let key := generateIdempotencyKey ev.checkoutRequestId ev.merchantRequestId
  let dup := checkIdempotency s key now
  if dup.1 then (dup.2, WebhookResponse.alreadyProcessed)
  else
    let s1 := markAsProcessing dup.2 key
    let branch : Except String Store :=
      if ev.resultCode == 0 then
        match ev.callbackMetadata with
        | some items =>
          match pendingTxByReference s1.transactions ev.checkoutRequestId with
          | some pendingTx =>
            if pendingTx.isSignup then
              handleSignupPayment s1 pendingTx.id items.phoneNumber now
            else
              Except.ok (recordTransaction
                (updateTransaction s1 pendingTx.id TxStatus.completed now)
                { pendingTx with
                    status := TxStatus.completed
                    processedAt := some now })
          | none => Except.ok s1
        | none => Except.ok s1
      else
        match pendingTxByReference s1.transactions ev.checkoutRequestId with
        | some pendingTx =>
          Except.ok (updateTransaction s1 pendingTx.id TxStatus.failed now)
        | none => Except.ok s1
    match branch with
    | Except.error _ => (s1, WebhookResponse.serverError)
    | Except.ok s2 => (markAsCompleted s2 key now, WebhookResponse.processed)

@[simp] lemma markAsProcessing_transactions (s : Store) (key : String) :
    (markAsProcessing s key).transactions = s.transactions := by
  unfold markAsProcessing; split <;> rfl

@[simp] lemma markAsProcessing_ledgerEntries (s : Store) (key : String) :
    (markAsProcessing s key).ledgerEntries = s.ledgerEntries := by
  unfold markAsProcessing; split <;> rfl

@[simp] lemma markAsProcessing_users (s : Store) (key : String) :
    (markAsProcessing s key).users = s.users := by
  unfold markAsProcessing; split <;> rfl

@[simp] lemma markAsProcessing_devices (s : Store) (key : String) :
    (markAsProcessing s key).devices = s.devices := by
  unfold markAsProcessing; split <;> rfl

@[simp] lemma markAsProcessing_referrals (s : Store) (key : String) :
    (markAsProcessing s key).referrals = s.referrals := by
  unfold markAsProcessing; split <;> rfl

@[simp] lemma markAsProcessing_memCache (s : Store) (key : String) :
    (markAsProcessing s key).memCache = s.memCache := by
  unfold markAsProcessing; split <;> rfl

@[simp] lemma markAsProcessing_balances (s : Store) (key : String) :
    (markAsProcessing s key).balances = s.balances := by
  unfold markAsProcessing; split <;> rfl

@[simp] lemma markAsCompleted_transactions (s : Store) (key : String) (now : Nat) :
    (markAsCompleted s key now).transactions = s.transactions := by
  simp only [markAsCompleted]; split <;> rfl

@[simp] lemma markAsCompleted_ledgerEntries (s : Store) (key : String) (now : Nat) :
    (markAsCompleted s key now).ledgerEntries = s.ledgerEntries := by
  simp only [markAsCompleted]; split <;> rfl

@[simp] lemma markAsCompleted_users (s : Store) (key : String) (now : Nat) :
    (markAsCompleted s key now).users = s.users := by
  simp only [markAsCompleted]; split <;> rfl

@[simp] lemma markAsCompleted_memCache (s : Store) (key : String) (now : Nat) :
    (markAsCompleted s key now).memCache = (key, now) :: s.memCache := by
  simp only [markAsCompleted]; split <;> rfl

@[simp] lemma updateTransaction_ledgerEntries (s : Store) (txId : String)
    (st : TxStatus) (now : Nat) :
    (updateTransaction s txId st now).ledgerEntries = s.ledgerEntries := rfl

@[simp] lemma updateTransaction_users (s : Store) (txId : String)
    (st : TxStatus) (now : Nat) :
    (updateTransaction s txId st now).users = s.users := rfl

@[simp] lemma updateTransaction_memCache (s : Store) (txId : String)
    (st : TxStatus) (now : Nat) :
    (updateTransaction s txId st now).memCache = s.memCache := rfl

@[simp] lemma updateTransaction_idem (s : Store) (txId : String)
    (st : TxStatus) (now : Nat) :
    (updateTransaction s txId st now).idem = s.idem := rfl

@[simp] lemma recordTransaction_ledgerEntries_length (s : Store) (tx : Transaction) :
    (recordTransaction s tx).ledgerEntries.length = s.ledgerEntries.length + 1 := by
  cases h : tx.type <;> simp [recordTransaction, h]

/-- Claim C2: a success webhook matching a pending non-signup transaction,
delivered for the first time (no idempotency state for its key), posts exactly
one ledger entry and creates no user; delivering the identical event again
within the 24h window is a pure no-op: the second call answers
already-processed and returns the store unchanged, so the two deliveries
produce exactly one ledger entry between them. -/
theorem webhook_replay_noop
    (s : Store) (ev : WebhookEvent) (t1 t2 : Nat) (items : CallbackItems)
    (tx : Transaction)
    (hmc : s.memCache.lookup
      (generateIdempotencyKey ev.checkoutRequestId ev.merchantRequestId) = none)
    (hdb : s.idem.find? (fun r =>
      r.key == generateIdempotencyKey ev.checkoutRequestId ev.merchantRequestId) = none)
    (hcode : ev.resultCode = 0)
    (hmeta : ev.callbackMetadata = some items)
    (htx : pendingTxByReference s.transactions ev.checkoutRequestId = some tx)
    (hsig : tx.isSignup = false)
    (hwin : t2 - t1 < IDEMPOTENCY_WINDOW_MS) :
    (processWebhook s ev t1).2 = WebhookResponse.processed ∧
    (processWebhook s ev t1).1.ledgerEntries.length = s.ledgerEntries.length + 1 ∧
    (processWebhook s ev t1).1.users = s.users ∧
    processWebhook (processWebhook s ev t1).1 ev t2 =
      ((processWebhook s ev t1).1, WebhookResponse.alreadyProcessed) := by
  have hchk : checkIdempotency s
      (generateIdempotencyKey ev.checkoutRequestId ev.merchantRequestId) t1 =
      (false, s) := by
    simp [checkIdempotency, checkIdempotencyDb, hmc, hdb]
  have hfirst : processWebhook s ev t1 =
      (markAsCompleted
        (recordTransaction
          (updateTransaction
            (markAsProcessing s
              (generateIdempotencyKey ev.checkoutRequestId ev.merchantRequestId))
            tx.id TxStatus.completed t1)
          { tx with status := TxStatus.completed, processedAt := some t1 })
        (generateIdempotencyKey ev.checkoutRequestId ev.merchantRequestId) t1,
      WebhookResponse.processed) := by
    simp [processWebhook, hchk, hcode, hmeta, htx, hsig]
  refine ⟨by rw [hfirst], ?_, ?_, ?_⟩
  · rw [hfirst]
    simp
  · rw [hfirst]
    simp
  · have hmem2 : (processWebhook s ev t1).1.memCache.lookup
        (generateIdempotencyKey ev.checkoutRequestId ev.merchantRequestId) =
        some t1 := by
      rw [hfirst]
      simp
    generalize hgen : (processWebhook s ev t1).1 = sp at hmem2 ⊢
    have hchk2 : checkIdempotency sp
        (generateIdempotencyKey ev.checkoutRequestId ev.merchantRequestId) t2 =
        (true, sp) := by
      simp [checkIdempotency, hmem2, hwin]
    simp [processWebhook, hchk2]

def itemsA : CallbackItems :=
  { amount := 250, mpesaReceiptNumber := "R1", phoneNumber := "254700000001" }

def webhookEvent1 : WebhookEvent :=
  { merchantRequestId := "m1"
    checkoutRequestId := "c1"
    resultCode := 0
    resultDesc := "ok"
    callbackMetadata := some itemsA }

def webhookTx : Transaction :=
  { id := "wt1"
    userId := "wu1"
    type := TxType.deposit
    amount := 250
    status := TxStatus.pending
    reference := "c1"
    isSignup := false
    email := none
    deviceFingerprint := none
    createdAt := 0
    processedAt := none }

def webhookStore : Store := { emptyStore with transactions := [webhookTx] }

theorem webhook_replay_noop_witness :
    webhookStore.memCache.lookup (generateIdempotencyKey "c1" "m1") = none ∧
    webhookStore.idem.find?
      (fun r => r.key == generateIdempotencyKey "c1" "m1") = none ∧
    pendingTxByReference webhookStore.transactions "c1" = some webhookTx ∧
    (200 : Nat) - 100 < IDEMPOTENCY_WINDOW_MS ∧
    ((processWebhook webhookStore webhookEvent1 100).2 = WebhookResponse.processed ∧
      (processWebhook webhookStore webhookEvent1 100).1.ledgerEntries.length =
        webhookStore.ledgerEntries.length + 1 ∧
      (processWebhook webhookStore webhookEvent1 100).1.users = webhookStore.users ∧
      processWebhook (processWebhook webhookStore webhookEvent1 100).1
          webhookEvent1 200 =
        ((processWebhook webhookStore webhookEvent1 100).1,
          WebhookResponse.alreadyProcessed)) :=
  ⟨rfl, rfl, rfl, by decide,
    webhook_replay_noop webhookStore webhookEvent1 100 200 itemsA webhookTx
      rfl rfl rfl rfl rfl rfl (by decide)⟩

end Mpesa
